import Mathlib

/-!
Shallow embedding of the predictive consumption/expiration engine of the
myexpirekits backend (src/services/recipeGenerationService.ts,
src/services/mlService.ts, src/services/mlModels/knnExpirationPredictor.ts,
src/services/mlModels/consumptionPredictor.ts).

Numbers are modelled as rationals.  JavaScript values that can be
null / NaN / ±Infinity are modelled by the `JSVal` type below; JavaScript
dates are modelled by their epoch-millisecond timestamps (integers).
`Array.prototype.sort` (a stable comparator sort in every modern engine)
is modelled by a stable insertion sort.
-/

/-- A JavaScript numeric slot: a finite number, NaN, ±Infinity, or null
(null also stands for `undefined`, which the code treats identically). -/
inductive JSVal where
  | num (q : ℚ)
  | nan
  | inf
  | ninf
  | nullv
deriving DecidableEq

/-- JavaScript truthiness of a `JSVal`: `0`, `NaN`, `null`/`undefined`
are falsy, every other number (including ±Infinity) is truthy. -/
def jsTruthy : JSVal → Bool
  | .num q => q != 0
  | .nan => false
  | .inf => true
  | .ninf => true
  | .nullv => false

/-- `v || d` for a JavaScript numeric slot and a finite default. -/
def jsOr (v : JSVal) (d : ℚ) : JSVal :=
  if jsTruthy v then v else .num d

/-- Is the value a finite number (what `typeof f === 'number' && isFinite(f)`
tests on a `JSVal`)? -/
def isFiniteNum : JSVal → Bool
  | .num _ => true
  | _ => false

/-- `x || d` for a nullable finite number (SQL `NULL` arrives as `null`,
`0` is falsy). -/
def optOr (v : Option ℚ) (d : ℚ) : ℚ :=
  match v with
  | some q => if q = 0 then d else q
  | none => d

/-- JavaScript `Math.round`: round half toward +∞. -/
def jsRound (q : ℚ) : ℤ := ⌊q + 1/2⌋

/-- Milliseconds in a day, `1000 * 60 * 60 * 24`. -/
def msPerDay : ℚ := 86400000

/-- Stable insertion step: `a` is placed after every element `b` with
`le b a`, so elements compared equal keep their original order, matching
the stability guarantee of `Array.prototype.sort`. -/
def insertLe (le : α → α → Bool) (a : α) : List α → List α
  | [] => [a]
  | b :: t => if le b a then b :: insertLe le a t else a :: b :: t

/-- Stable comparator sort modelling `Array.prototype.sort(cmp)`;
`le x y` means `cmp(x, y) <= 0` (`x` may come before `y`). -/
def stableSort (le : α → α → Bool) (l : List α) : List α :=
  l.foldl (fun acc x => insertLe le x acc) []

/-- Distinct elements of a list in order of first occurrence — the key
order of a JavaScript object or `Map` populated left to right
(`Object.entries` / `Map.entries` iterate in insertion order). -/
def firstOcc [DecidableEq α] : List α → List α
  | [] => []
  | a :: t => a :: firstOcc (t.filter (fun x => x ≠ a))
termination_by l => l.length
decreasing_by
  simp only [List.length_cons]
  exact Nat.lt_succ_of_le (List.length_filter_le _ _)

/-- Maximum of `f` over a list, 0 for the empty list. -/
def maxVotes (f : α → ℕ) (l : List α) : ℕ :=
  l.foldr (fun e m => max (f e) m) 0

namespace RF

/-!
`RandomForestConsumptionPredictor` (recipeGenerationService.ts).
Only the data path is embedded: feature extraction, feature cleaning and
training-data validation.  The actual forest fitting is done by the
external `ml-random-forest` library and is outside this repository.
-/

/-- Default value table of `getDefaultFeatureValue`; `defaults[index] || 0`
yields `0` for an out-of-range index. -/
def getDefaultFeatureValue (index : ℕ) : ℚ :=
  ([30, 1, 30, 0, 1, 6, 0, 30, 0, 1, 30] : List ℚ).getD index 0

/-- One entry of `cleanFeatureArray`: null/undefined, NaN and ±Infinity are
replaced by the default for that index, finite numbers pass through. -/
def cleanFeatureValue (index : ℕ) (v : JSVal) : JSVal :=
  match v with
  | .num q => .num q
  | _ => .num (getDefaultFeatureValue index)

/-- Index-tracking map underlying `cleanFeatureArray`
(`features.map((value, index) => ...)` starting at `index = i`). -/
def cleanFrom (i : ℕ) : List JSVal → List JSVal
  | [] => []
  | v :: t => cleanFeatureValue i v :: cleanFrom (i + 1) t

/-- `cleanFeatureArray`: per-index default substitution over the array. -/
def cleanFeatureArray (features : List JSVal) : List JSVal :=
  cleanFrom 0 features

/-- The 11-field feature record produced by `extractFeatures`
(`ConsumptionFeatures`). -/
structure ConsumptionFeatures where
  average_consumption_days : JSVal
  consumption_count : JSVal
  days_since_last_consumed : JSVal
  category_encoded : JSVal
  day_of_week : JSVal
  month : JSVal
  is_weekend : JSVal
  days_until_expiry : JSVal
  item_age_days : JSVal
  user_total_items : JSVal
  user_avg_consumption_frequency : JSVal
deriving DecidableEq

/-- `featuresToArray`: fixed field order. -/
def featuresToArray (f : ConsumptionFeatures) : List JSVal :=
  [f.average_consumption_days,
   f.consumption_count,
   f.days_since_last_consumed,
   f.category_encoded,
   f.day_of_week,
   f.month,
   f.is_weekend,
   f.days_until_expiry,
   f.item_age_days,
   f.user_total_items,
   f.user_avg_consumption_frequency]

/-- The fields of the `pattern` row read by `extractFeatures`.
`last_consumed` arrives from the driver as a `Date` (always truthy) or
`NULL`; the two numeric columns can be null or malformed, hence `JSVal`. -/
structure PatternRow where
  average_consumption_days : JSVal
  consumption_count : JSVal
  last_consumed : Option ℤ
  category : String
deriving DecidableEq

/-- The fields of the optional `item` argument of `extractFeatures`. -/
structure ItemRow where
  expiryDate : Option ℤ
  created_at : Option ℤ
deriving DecidableEq

/-- The `userStats` argument of `extractFeatures`. -/
structure UserStats where
  total_items : JSVal
  avg_frequency : JSVal
deriving DecidableEq

/-- A JavaScript `Date` as `extractFeatures` uses it: epoch milliseconds
plus the calendar projections `getDay()` (0–6) and `getMonth()` (0–11). -/
structure JSDate where
  time : ℤ
  day : Fin 7
  month0 : Fin 12

/-- `encodeCategoryAsNumber` over the encoder state (a `Map` in insertion
order, modelled by the list of categories in first-seen order): returns
the index of the category and the updated encoder. -/
def encodeCategoryAsNumber (enc : List String) (c : String) : ℕ × List String :=
  match enc.findIdx? (· = c) with
  | some i => (i, enc)
  | none => (enc.length, enc ++ [c])

/-- `extractFeatures` (recipeGenerationService.ts lines 812–843).
Returns the feature record together with the updated category encoder. -/
def extractFeatures (enc : List String) (pattern : PatternRow)
    (currentDate : JSDate) (item : Option ItemRow) (userStats : UserStats) :
    ConsumptionFeatures × List String :=
  let daysSinceLastConsumed : JSVal :=
    match pattern.last_consumed with
    | some t => .num ⌊((currentDate.time - t : ℚ)) / msPerDay⌋
    | none => .num 999
  let daysUntilExpiry : ℚ :=
    match item.bind (·.expiryDate) with
    | some e => ⌊((e - currentDate.time : ℚ)) / msPerDay⌋
    | none => 365
  let itemAgeDays : ℚ :=
    match item.bind (·.created_at) with
    | some c => ⌊((currentDate.time - c : ℚ)) / msPerDay⌋
    | none => 0
  let ce := encodeCategoryAsNumber enc pattern.category
  ({ average_consumption_days := jsOr pattern.average_consumption_days 30
     consumption_count := jsOr pattern.consumption_count 0
     days_since_last_consumed := daysSinceLastConsumed
     category_encoded := .num (ce.1 : ℚ)
     day_of_week := .num (currentDate.day.val : ℚ)
     month := .num ((currentDate.month0.val : ℚ) + 1)
     is_weekend := .num (if currentDate.day.val = 0 ∨ currentDate.day.val = 6 then 1 else 0)
     days_until_expiry := .num (max 0 daysUntilExpiry)
     item_age_days := .num itemAgeDays
     user_total_items := jsOr userStats.total_items 0
     user_avg_consumption_frequency := jsOr userStats.avg_frequency 30 }, ce.2)

/-- A raw `TrainingDataPoint` before validation. -/
structure TrainingDataPoint where
  features : List JSVal
  days_target : JSVal
  classification_target : JSVal
deriving DecidableEq

/-- A training example after `validateTrainingData`. -/
structure CleanPoint where
  features : List JSVal
  days_target : ℚ
  classification_target : ℚ
deriving DecidableEq

/-- Cleaning of `days_target`: NaN/±Infinity become 30, then the value is
clamped to [1, 365] by `Math.max(1, Math.min(d, 365))`. -/
def cleanDaysTarget (v : JSVal) : ℚ :=
  let d : ℚ := match v with
    | .num q => q
    | _ => 30
  max 1 (min d 365)

/-- Cleaning of `classification_target`: a value that is not exactly 0 or 1
is re-derived from the cleaned days target. -/
def cleanClassificationTarget (v : JSVal) (days : ℚ) : ℚ :=
  match v with
  | .num q => if q = 0 ∨ q = 1 then q else (if days ≤ 7 then 1 else 0)
  | _ => if days ≤ 7 then 1 else 0

/-- The per-example body of `validateTrainingData`'s `map`. -/
def cleanPoint (dp : TrainingDataPoint) : CleanPoint :=
  let cd := cleanDaysTarget dp.days_target
  { features := cleanFeatureArray dp.features
    days_target := cd
    classification_target := cleanClassificationTarget dp.classification_target cd }

/-- `validateTrainingData` (lines 771–807): clean every example, then drop
any example whose feature vector still contains a non-finite value. -/
def validateTrainingData (l : List TrainingDataPoint) : List CleanPoint :=
  (l.map cleanPoint).filter (fun dp => dp.features.all isFiniteNum)

/-- The data-validation gate of `train` (lines 961–1017): reject fewer than
10 raw examples, clean, reject fewer than 10 clean examples; on success the
clean examples are handed to the external random-forest fit. -/
def trainGate (raw : List TrainingDataPoint) : Except String (List CleanPoint) :=
  if raw.length < 10 then
    Except.error "Need at least 10 training examples"
  else
    let trainingData := validateTrainingData raw
    if trainingData.length < 10 then
      Except.error "After cleaning, too few valid examples remain"
    else
      Except.ok trainingData

end RF

namespace KNN

/-!
`KNNExpirationPredictor` (mlModels/knnExpirationPredictor.ts).
-/

/-- Lifecycle outcome labels. -/
inductive Outcome where
  | consume
  | expire
  | discard
deriving DecidableEq

/-- A stored labeled example (`TrainingDataPoint` of the KNN module). -/
structure TrainingPoint where
  item_id : String
  item_name : String
  category : String
  consumption_count : ℚ
  average_consumption_days : Option ℚ
  actual_lifespan_days : ℚ
  outcome : Outcome
  user_id : String
deriving DecidableEq

/-- The fields of the query object (`featureVector`) that `predict` and
`distance` actually read. -/
structure Query where
  category : String
  consumption_count : ℚ
  average_consumption_days : Option ℚ
deriving DecidableEq

/-- Predictor state: `k` and the stored training set. -/
structure Model where
  k : ℕ
  trainingData : List TrainingPoint
deriving DecidableEq

/-- The squared distance of `distance` (category mismatch penalty 5,
consumption-count difference scaled by 1/10 squared, average-days
difference scaled by 1/3 squared, with `|| 0` resp. `|| 30` defaults).
The source takes `Math.sqrt` of this sum; the square root is strictly
monotone on the nonnegative sum and the distance is used only to order
candidates, so the induced neighbor order is identical. -/
def distSq (p : TrainingPoint) (item : Query) : ℚ :=
  (if p.category = item.category then 0 else 5)
    + ((optOr (some p.consumption_count) 0 - optOr (some item.consumption_count) 0) / 10) ^ 2
    + ((optOr p.average_consumption_days 30 - optOr item.average_consumption_days 30) / 3) ^ 2

/-- Candidate list: map to (point, distance) pairs, sort ascending by
distance (stable), keep the first `k`. -/
def nearestOf (m : Model) (item : Query) (cands : List TrainingPoint) :
    List (TrainingPoint × ℚ) :=
  (stableSort (fun a b => decide (a.2 ≤ b.2))
    (cands.map (fun d => (d, distSq d item)))).take m.k

/-- Neighbor selection of `predict`: restrict to the query's category; if
no candidate matches the category, fall back to the whole training set. -/
def neighborsFor (m : Model) (item : Query) : List (TrainingPoint × ℚ) :=
  let nbrs := nearestOf m item (m.trainingData.filter (fun d => d.category = item.category))
  if nbrs.isEmpty then nearestOf m item m.trainingData else nbrs

/-- The vote fold of `predict`: iterate over the outcome labels in first
insertion order (`Object.entries` of the `outcomes` object) with their
final counts, keeping a label only when its count is strictly greater
than the running maximum (initially `0`, prediction initially
`consume`). -/
def votesFold (os : List Outcome) : ℕ × Outcome :=
  (firstOcc os).foldl
    (fun acc e => if os.count e > acc.1 then (os.count e, e) else acc)
    (0, Outcome.consume)

/-- Result record of `predict`. -/
structure PredictionResult where
  prediction : Outcome
  confidence : ℚ
  days : ℤ
deriving DecidableEq

/-- `predict` (knnExpirationPredictor.ts lines 47–105). -/
def predict (m : Model) (item : Query) : PredictionResult :=
  if m.trainingData.isEmpty then
    { prediction := .consume, confidence := 0, days := 30 }
  else
    let neighbors := neighborsFor m item
    let os := neighbors.map (fun n => n.1.outcome)
    let totalDays := (neighbors.map (fun n => n.1.actual_lifespan_days)).sum
    let mc := votesFold os
    { prediction := mc.2
      confidence := (mc.1 : ℚ) / (m.k : ℚ)
      days := jsRound (totalDays / (neighbors.length : ℚ)) }

end KNN

namespace CP

/-!
`ConsumptionPredictor` (mlModels/consumptionPredictor.ts).
-/

/-- A `ConsumptionPattern` row. -/
structure CPattern where
  user_id : String
  item_name : String
  category : String
  average_consumption_days : Option ℚ
  consumption_count : ℚ
  last_consumed : Option ℤ
deriving DecidableEq

/-- `userPatterns` state: user id → category → patterns, modelled as
association lists in JavaScript-object insertion order. -/
abbrev UserMap : Type := List (String × List (String × List CPattern))

/-- Association-list lookup (object property access; keys are unique). -/
def lookupA (l : List (String × α)) (k : String) : Option α :=
  (l.find? (fun kv => kv.1 = k)).map (fun kv => kv.2)

/-- Update the value at a key, inserting `f d` at the end when absent
(`if (!obj[k]) obj[k] = init; …` followed by the update). -/
def upsert (l : List (String × α)) (k : String) (d : α) (f : α → α) :
    List (String × α) :=
  match l with
  | [] => [(k, f d)]
  | (k0, v) :: t => if k0 = k then (k0, f v) :: t else (k0, v) :: upsert t k d f

/-- Phase 1 of `train`: push each pattern onto its user/category bucket.
The existing state is NOT cleared first. -/
def pushPattern (s : UserMap) (p : CPattern) : UserMap :=
  upsert s p.user_id [] (fun cats => upsert cats p.category [] (fun lst => lst ++ [p]))

/-- Phase 2 of `train`: re-sort every bucket by `consumption_count`
descending (stable, comparator `(a, b) => b.consumption_count -
a.consumption_count`). -/
def sortBuckets (s : UserMap) : UserMap :=
  s.map (fun uc =>
    (uc.1, uc.2.map (fun cl =>
      (cl.1, stableSort (fun a b => decide (b.consumption_count ≤ a.consumption_count)) cl.2))))

/-- `train` (consumptionPredictor.ts lines 24–53). -/
def train (s : UserMap) (consumptionPatterns : List CPattern) : UserMap :=
  sortBuckets (consumptionPatterns.foldl pushPattern s)

/-- One prediction entry of `predictNextConsumption`. -/
structure CPrediction where
  item_name : String
  category : String
  days_until_next : ℚ
  confidence : ℚ
deriving DecidableEq

/-- Prediction built from one pattern: `average_consumption_days || 30`
and `min(consumption_count / 10, 0.9)`. -/
def mkPrediction (p : CPattern) : CPrediction :=
  { item_name := p.item_name
    category := p.category
    days_until_next := optOr p.average_consumption_days 30
    confidence := min (p.consumption_count / 10) (9/10) }

/-- Mean confidence over a prediction list, 0 when empty. -/
def avgConfidence (l : List CPrediction) : ℚ :=
  if l.isEmpty then 0
  else (l.map (fun p => p.confidence)).sum / (l.length : ℚ)

/-- `predictNextConsumption` (consumptionPredictor.ts lines 56–108). -/
def predictNextConsumption (s : UserMap) (userId : String)
    (category : Option String) : List CPrediction × ℚ :=
  match lookupA s userId with
  | none => ([], 0)
  | some cats =>
    match category with
    | some c =>
      match lookupA cats c with
      | none => ([], 0)
      | some ps =>
        if ps.isEmpty then ([], 0)
        else
          let preds := (ps.take 3).map mkPrediction
          (preds, avgConfidence preds)
    | none =>
      let preds0 := cats.foldl
        (fun acc cl => match cl.2 with
          | [] => acc
          | top :: _ => acc ++ [mkPrediction top]) []
      let preds := stableSort (fun a b => decide (b.confidence ≤ a.confidence)) preds0
      (preds, avgConfidence preds)

end CP

namespace ML

/-!
`MLService` (mlService.ts): the trend forecaster and `analyzeInventory`.
-/

/-- The 8-point 7-day moving-average series of `predictConsumptionTrend`:
`slice(i, i + 7)` windows for `i = 0..7`, each averaged over its own
length. -/
def movingAverages (last14Days : List ℚ) : List ℚ :=
  (List.range 8).map (fun i =>
    let w := (last14Days.drop i).take 7
    w.sum / (w.length : ℚ))

/-- Linear trend: `(last MA − first MA) / (count − 1)` when at least two
moving averages exist, else 0. -/
def trendOf (mas : List ℚ) : ℚ :=
  if 2 ≤ mas.length then (mas.getD (mas.length - 1) 0 - mas.getD 0 0) / ((mas.length : ℚ) - 1)
  else 0

/-- The forecasting core of `predictConsumptionTrend` (mlService.ts lines
94–154), starting from the 14-day `last14Days` history: the 7-day
forecast values and the fixed confidence 0.6. -/
def predictTrend (last14Days : List ℚ) : List ℤ × ℚ :=
  let mas := movingAverages last14Days
  let trend := trendOf mas
  let lastMA := mas.getD (mas.length - 1) 0
  ((List.range 7).map (fun (j : ℕ) => max 0 (jsRound (lastMA + trend * ((j : ℚ) + 1)))), 6/10)

/-- An active-inventory row as `analyzeInventory` reads it. -/
structure Item where
  id : String
  name : String
  category : String
  expiryDate : Option ℤ
  status : String
deriving DecidableEq

/-- A `consumption_patterns` row as `analyzeInventory` reads it. -/
structure Pattern where
  user_id : String
  item_name : String
  category : String
  average_consumption_days : Option ℚ
  consumption_count : ℚ
  last_consumed : Option ℤ
deriving DecidableEq

/-- One row of the per-category event-count query. -/
structure CatStat where
  category : String
  item_count : ℕ
  consume_count : ℕ
  expire_count : ℕ
deriving DecidableEq

/-- Risk buckets. -/
inductive RiskLevel where
  | high
  | medium
  | low
deriving DecidableEq

/-- Per-item analysis record returned by `analyzeInventory`. -/
structure ItemAnalysis where
  id : String
  name : String
  category : String
  expiryDate : Option ℤ
  days_until_expiry : Option ℤ
  status : String
  outcome : KNN.Outcome
  confidence : ℚ
  days : ℤ
  avg_consumption_days : Option ℚ
  consumption_count : ℚ
  last_consumed : Option ℤ
  risk_score : ℚ
  risk_level : RiskLevel
deriving DecidableEq

/-- `patternMap.get(item.name.toLowerCase())`: the map is populated with
`set` per pattern, so on duplicate lowercased names the LAST row wins —
hence the lookup scans the reversed list. -/
def patternFor (patterns : List Pattern) (item : Item) : Option Pattern :=
  patterns.reverse.find? (fun p => p.item_name.toLower = item.name.toLower)

/-- Category waste risk: `expire / (consume + expire)` events, 0 when the
category has no such events or no stats row
(`categoryWasteRisk.get(c) || 0`). -/
def wasteRiskFor (categoryStats : List CatStat) (cat : String) : ℚ :=
  match categoryStats.reverse.find? (fun s => s.category = cat) with
  | some s =>
    if 0 < s.consume_count + s.expire_count then
      (s.expire_count : ℚ) / ((s.consume_count : ℚ) + (s.expire_count : ℚ))
    else 0
  | none => 0

/-- The weighted risk score (mlService.ts lines 275–277). -/
def riskScoreOf (pred : KNN.PredictionResult) (categoryRisk : ℚ) : ℚ :=
  if pred.prediction = KNN.Outcome.expire then
    7/10 * pred.confidence + 3/10 * categoryRisk
  else
    3/10 * categoryRisk - 1/10 * pred.confidence

/-- Risk bucketing (line 297): `> 0.7` high, `> 0.4` medium, else low. -/
def riskLevelOf (s : ℚ) : RiskLevel :=
  if 7/10 < s then .high else if 4/10 < s then .medium else .low

/-- Assembly of one item's analysis record from its looked-up pattern,
days-until-expiry, KNN prediction and category risk (lines 279–298). -/
def analyzeItemWith (item : Item) (pattern : Option Pattern)
    (daysUntilExpiry : Option ℤ) (pred : KNN.PredictionResult)
    (categoryRisk : ℚ) : ItemAnalysis :=
  { id := item.id
    name := item.name
    category := item.category
    expiryDate := item.expiryDate
    days_until_expiry := daysUntilExpiry
    status := item.status
    outcome := pred.prediction
    confidence := pred.confidence
    days := pred.days
    avg_consumption_days := (pattern.map (fun p => p.average_consumption_days)).getD none
    consumption_count := (pattern.map (fun p => p.consumption_count)).getD 0
    last_consumed := (pattern.map (fun p => p.last_consumed)).getD none
    risk_score := riskScoreOf pred categoryRisk
    risk_level := riskLevelOf (riskScoreOf pred categoryRisk) }

/-- Per-item analysis of `analyzeInventory` (lines 246–303): pattern
lookup, days-until-expiry, feature vector, KNN prediction, risk. -/
def analyzeItem (model : KNN.Model) (now : ℤ) (patterns : List Pattern)
    (categoryStats : List CatStat) (item : Item) : ItemAnalysis :=
  let pattern := patternFor patterns item
  let daysUntilExpiry := item.expiryDate.map (fun e => max 0 ⌊((e - now : ℚ)) / msPerDay⌋)
  let fv : KNN.Query :=
    { category := item.category
      consumption_count := (pattern.map (fun p => p.consumption_count)).getD 0
      average_consumption_days := (pattern.map (fun p => p.average_consumption_days)).getD none }
  analyzeItemWith item pattern daysUntilExpiry (KNN.predict model fv)
    (wasteRiskFor categoryStats item.category)

/-- The summary block. `high_risk_items` and `waste_risk_level` are absent
from the zero-item early return, hence optional. -/
structure Summary where
  total_items : ℕ
  expiring_soon : ℕ
  high_risk_items : Option ℕ
  waste_risk : ℚ
  waste_risk_level : Option RiskLevel
deriving DecidableEq

/-- One entry of the `categories` array of the full result. -/
structure CategoryRisk where
  category : String
  item_count : ℕ
  waste_risk : ℚ
  risk_level : RiskLevel
deriving DecidableEq

/-- Result of `analyzeInventory`; `categories` is absent from the
zero-item early return. -/
structure AnalysisResult where
  items : List ItemAnalysis
  summary : Summary
  categories : Option (List CategoryRisk)
deriving DecidableEq

/-- `analyzeInventory` (mlService.ts lines 185–339) as a function of the
query results it reads.  In this pure embedding no per-item analysis can
throw, so the `item !== null` filter keeps every analysis. -/
def analyzeInventory (model : KNN.Model) (now : ℤ) (items : List Item)
    (patterns : List Pattern) (categoryStats : List CatStat) : AnalysisResult :=
  if items.isEmpty then
    { items := []
      summary :=
        { total_items := 0
          expiring_soon := 0
          high_risk_items := none
          waste_risk := 0
          waste_risk_level := none }
      categories := none }
  else
    let validAnalyses := items.map (analyzeItem model now patterns categoryStats)
    let sorted := stableSort (fun a b => decide (b.risk_score ≤ a.risk_score)) validAnalyses
    let expiringSoon := (sorted.filter (fun a =>
      match a.days_until_expiry with
      | some d => decide (d ≤ 7)
      | none => false)).length
    let highRisk := (sorted.filter (fun a => a.risk_level = RiskLevel.high)).length
    let overall := (sorted.map (fun a => a.risk_score)).sum / (sorted.length : ℚ)
    { items := sorted
      summary :=
        { total_items := sorted.length
          expiring_soon := expiringSoon
          high_risk_items := some highRisk
          waste_risk := overall
          waste_risk_level := some
            (if 6/10 < overall then RiskLevel.high
             else if 3/10 < overall then RiskLevel.medium
             else RiskLevel.low) }
      categories := some ((firstOcc (categoryStats.map (fun s => s.category))).map (fun c =>
        { category := c
          item_count := ((categoryStats.find? (fun s => s.category = c)).map
            (fun s => s.item_count)).getD 0
          waste_risk := wasteRiskFor categoryStats c
          risk_level :=
            (if 6/10 < wasteRiskFor categoryStats c then RiskLevel.high
             else if 3/10 < wasteRiskFor categoryStats c then RiskLevel.medium
             else RiskLevel.low) })) }

end ML

namespace Ex

/-!
Concrete inputs used by the individual claim counterexamples and
witnesses (one group per claim; no sharing across claims).
-/

/-- C2: a fully clean raw training example. -/
def c2good : RF.TrainingDataPoint :=
  { features := [.num 30, .num 1, .num 5, .num 0, .num 1, .num 6, .num 0,
                 .num 30, .num 0, .num 1, .num 30]
    days_target := .num 5
    classification_target := .num 1 }

/-- C2: a raw training example with non-finite values injected into every
feature and both targets. -/
def c2bad : RF.TrainingDataPoint :=
  { features := [.nan, .inf, .ninf, .nullv, .nan, .inf, .nan, .nullv,
                 .nan, .inf, .nan]
    days_target := .nan
    classification_target := .nan }

/-- C2: ten raw examples, non-finite values injected into all but two. -/
def c2raw : List RF.TrainingDataPoint :=
  [c2good, c2good, c2bad, c2bad, c2bad, c2bad, c2bad, c2bad, c2bad, c2bad]

/-- C5: a raw example whose classification target (0) contradicts its days
target (3 ≤ 7). -/
def c5inconsistent : RF.TrainingDataPoint :=
  { features := [.num 30, .num 1, .num 5, .num 0, .num 1, .num 6, .num 0,
                 .num 30, .num 0, .num 1, .num 30]
    days_target := .num 3
    classification_target := .num 0 }

/-- C5 witness: a raw example with a non-0/1 classification target. -/
def c5redo : RF.TrainingDataPoint :=
  { features := [.num 30, .num 1, .num 5, .num 0, .num 1, .num 6, .num 0,
                 .num 30, .num 0, .num 1, .num 30]
    days_target := .num 3
    classification_target := .nan }

/-- C4: a frequently consumed Dairy pattern. -/
def c4milk : CP.CPattern :=
  { user_id := "u", item_name := "milk", category := "Dairy"
    average_consumption_days := some 3, consumption_count := 10
    last_consumed := none }

/-- C4: a less frequently consumed Dairy pattern of the same user. -/
def c4yogurt : CP.CPattern :=
  { user_id := "u", item_name := "yogurt", category := "Dairy"
    average_consumption_days := some 4, consumption_count := 5
    last_consumed := none }

/-- C4: the pattern rows handed to both training calls. -/
def c4patterns : List CP.CPattern := [c4milk, c4yogurt]

/-- C6 witness: a one-example training set. -/
def c6model : KNN.Model :=
  { k := 5
    trainingData := [{ item_id := "i1", item_name := "milk", category := "Dairy"
                       consumption_count := 4, average_consumption_days := some 3
                       actual_lifespan_days := 6, outcome := .consume
                       user_id := "u" }] }

/-- C6 witness: a query of the same category. -/
def c6query : KNN.Query :=
  { category := "Dairy", consumption_count := 4, average_consumption_days := some 3 }

/-- C9 witness: two equidistant neighbors with tied (1–1) votes; the
`expire` example sits earlier in ascending-distance order. -/
def c9model : KNN.Model :=
  { k := 5
    trainingData := [{ item_id := "i1", item_name := "a", category := "Dairy"
                       consumption_count := 4, average_consumption_days := some 3
                       actual_lifespan_days := 6, outcome := .expire
                       user_id := "u" },
                     { item_id := "i2", item_name := "b", category := "Dairy"
                       consumption_count := 4, average_consumption_days := some 3
                       actual_lifespan_days := 9, outcome := .consume
                       user_id := "u" }] }

/-- C9 witness query. -/
def c9query : KNN.Query :=
  { category := "Dairy", consumption_count := 4, average_consumption_days := some 3 }

/-- C7 witness: an item predicted `expire` with confidence 0.9. -/
def c7pred : KNN.PredictionResult :=
  { prediction := .expire, confidence := 9/10, days := 4 }

/-- C7 witness item. -/
def c7item : ML.Item :=
  { id := "i1", name := "milk", category := "Dairy", expiryDate := some 259200000
    status := "active" }

end Ex

/-! ### Generic list lemmas -/

theorem length_insertLe (le : α → α → Bool) (a : α) (l : List α) :
    (insertLe le a l).length = l.length + 1 := by
  induction l with
  | nil => rfl
  | cons b t ih =>
    simp only [insertLe]
    split
    · simp [ih]
    · simp

theorem length_foldl_insertLe (le : α → α → Bool) (l : List α) :
    ∀ acc : List α,
      (l.foldl (fun acc x => insertLe le x acc) acc).length = acc.length + l.length := by
  induction l with
  | nil => intro acc; simp
  | cons b t ih =>
    intro acc
    simp only [List.foldl_cons, ih, length_insertLe, List.length_cons]
    omega

theorem length_stableSort (le : α → α → Bool) (l : List α) :
    (stableSort le l).length = l.length := by
  simpa [stableSort] using length_foldl_insertLe le l []

theorem mem_firstOcc [DecidableEq α] (l : List α) (x : α) :
    x ∈ firstOcc l ↔ x ∈ l := by
  induction l using firstOcc.induct with
  | case1 => simp [firstOcc]
  | case2 a t ih =>
    rw [firstOcc]
    simp only [List.mem_cons, ih, List.mem_filter]
    constructor
    · rintro (rfl | ⟨h, _⟩)
      · exact Or.inl rfl
      · exact Or.inr h
    · rintro (rfl | h)
      · exact Or.inl rfl
      · by_cases hx : x = a
        · exact Or.inl hx
        · exact Or.inr ⟨h, by simp [hx]⟩

theorem firstOcc_ne_nil [DecidableEq α] (a : α) (t : List α) :
    firstOcc (a :: t) ≠ [] := by
  rw [firstOcc]
  exact List.cons_ne_nil _ _

theorem find?_filter_ne [DecidableEq α] (p : α → Bool) (a : α) (h : p a = false)
    (t : List α) : (t.filter (fun x => x ≠ a)).find? p = t.find? p := by
  induction t with
  | nil => rfl
  | cons b s ih =>
    by_cases hb : b = a
    · subst hb
      have hf : (b :: s).filter (fun x => decide (x ≠ b)) = s.filter (fun x => decide (x ≠ b)) := by
        simp [List.filter_cons]
      rw [hf, ih, List.find?_cons_of_neg s (by simp [h])]
    · have hf : (b :: s).filter (fun x => decide (x ≠ a)) = b :: s.filter (fun x => decide (x ≠ a)) := by
        simp [List.filter_cons, hb]
      rw [hf]
      cases hp : p b with
      | true =>
        rw [List.find?_cons_of_pos _ hp, List.find?_cons_of_pos _ hp]
      | false =>
        rw [List.find?_cons_of_neg _ (by simp [hp]), List.find?_cons_of_neg _ (by simp [hp]), ih]

theorem find?_firstOcc [DecidableEq α] (p : α → Bool) (l : List α) :
    (firstOcc l).find? p = l.find? p := by
  induction l using firstOcc.induct with
  | case1 => rw [firstOcc]
  | case2 a t ih =>
    rw [firstOcc]
    cases hp : p a with
    | true =>
      rw [List.find?_cons_of_pos _ hp, List.find?_cons_of_pos _ hp]
    | false =>
      rw [List.find?_cons_of_neg _ (by simp [hp]), List.find?_cons_of_neg _ (by simp [hp]),
        ih, find?_filter_ne p a hp]

theorem maxVotes_nil (f : α → ℕ) : maxVotes f [] = 0 := rfl

theorem maxVotes_cons (f : α → ℕ) (e : α) (t : List α) :
    maxVotes f (e :: t) = max (f e) (maxVotes f t) := rfl

theorem le_maxVotes (f : α → ℕ) {x : α} {l : List α} (h : x ∈ l) :
    f x ≤ maxVotes f l := by
  induction l with
  | nil => cases h
  | cons e t ih =>
    rw [maxVotes_cons]
    rcases List.mem_cons.mp h with rfl | h2
    · exact Nat.le_max_left _ _
    · exact le_trans (ih h2) (Nat.le_max_right _ _)

theorem maxVotes_le (f : α → ℕ) {l : List α} {n : ℕ} (h : ∀ x ∈ l, f x ≤ n) :
    maxVotes f l ≤ n := by
  induction l with
  | nil => exact Nat.zero_le n
  | cons e t ih =>
    rw [maxVotes_cons]
    exact max_le (h e (List.mem_cons_self e t)) (ih fun x hx => h x (List.mem_cons_of_mem e hx))

/-- Behaviour of the strict-improvement argmax fold of `predict`: the first
component ends at the maximum of the initial value and the counts, the
accumulator is untouched when nothing beats the initial value, and when
something does, the final second component is the FIRST element attaining
the maximum. -/
theorem argmaxFold_spec (f : α → ℕ) (l : List α) : ∀ (M0 : ℕ) (p0 : α),
    ((l.foldl (fun acc e => if f e > acc.1 then (f e, e) else acc) (M0, p0)).1
        = max M0 (maxVotes f l)) ∧
    (maxVotes f l ≤ M0 →
      l.foldl (fun acc e => if f e > acc.1 then (f e, e) else acc) (M0, p0) = (M0, p0)) ∧
    (M0 < maxVotes f l →
      l.find? (fun e => decide (f e = maxVotes f l))
        = some ((l.foldl (fun acc e => if f e > acc.1 then (f e, e) else acc) (M0, p0)).2)) := by
  induction l with
  | nil =>
    intro M0 p0
    refine ⟨by simp [maxVotes_nil], fun _ => rfl, fun h => absurd h (by simp [maxVotes_nil])⟩
  | cons e t ih =>
    intro M0 p0
    simp only [List.foldl_cons, maxVotes_cons]
    by_cases he : f e > M0
    · rw [if_pos he]
      obtain ⟨h1, h2, h3⟩ := ih (f e) e
      refine ⟨?_, ?_, ?_⟩
      · rw [h1]
        have : M0 ≤ max (f e) (maxVotes f t) := le_trans (Nat.le_of_lt he) (Nat.le_max_left _ _)
        omega
      · intro hle
        have : f e ≤ M0 := le_trans (Nat.le_max_left _ _) hle
        omega
      · intro _
        by_cases hc : maxVotes f t ≤ f e
        · have hM : max (f e) (maxVotes f t) = f e := Nat.max_eq_left hc
          simp only [hM]
          rw [List.find?_cons_of_pos _ (by simp), h2 hc]
        · have hlt : f e < maxVotes f t := Nat.lt_of_not_le hc
          have hM : max (f e) (maxVotes f t) = maxVotes f t := Nat.max_eq_right (Nat.le_of_lt hlt)
          simp only [hM]
          rw [List.find?_cons_of_neg _ (by simp; omega)]
          exact h3 hlt
    · rw [if_neg he]
      have hfe : f e ≤ M0 := Nat.le_of_not_lt he
      obtain ⟨h1, h2, h3⟩ := ih M0 p0
      refine ⟨?_, ?_, ?_⟩
      · rw [h1]
        omega
      · intro hle
        exact h2 (le_trans (Nat.le_max_right _ _) hle)
      · intro hlt
        have h4 : M0 < maxVotes f t := by
          omega
        have hM : max (f e) (maxVotes f t) = maxVotes f t :=
          Nat.max_eq_right (le_trans hfe (Nat.le_of_lt h4))
        simp only [hM]
        rw [List.find?_cons_of_neg _ (by simp; omega)]
        exact h3 h4

theorem indexOf_append_of_notMem [DecidableEq α] {x : α} {as : List α}
    (h : x ∉ as) (bs : List α) :
    (as ++ bs).indexOf x = as.length + bs.indexOf x := by
  induction as with
  | nil => simp
  | cons a t ih =>
    have hax : ¬a = x := fun e => h (e ▸ List.mem_cons_self a t)
    have ht : x ∉ t := fun e => h (List.mem_cons_of_mem a e)
    have hbeq : (a == x) = false := beq_eq_false_iff_ne.mpr hax
    simp only [List.cons_append, List.indexOf_cons, hbeq, cond_false, List.length_cons]
    rw [ih ht]
    omega

/-! ### Lemmas about the Random-Forest data path -/

theorem RF.cleanFrom_length (l : List JSVal) : ∀ i, (RF.cleanFrom i l).length = l.length := by
  induction l with
  | nil => intro i; rfl
  | cons v t ih => intro i; simp [RF.cleanFrom, ih]

theorem RF.cleanFrom_getElem? (l : List JSVal) :
    ∀ i j, (RF.cleanFrom i l)[j]? = (l[j]?).map (fun v => RF.cleanFeatureValue (i + j) v) := by
  induction l with
  | nil => intro i j; simp [RF.cleanFrom]
  | cons v t ih =>
    intro i j
    cases j with
    | zero => simp [RF.cleanFrom]
    | succ j =>
      simp only [RF.cleanFrom, List.getElem?_cons_succ, ih (i + 1) j]
      have : i + 1 + j = i + (j + 1) := by omega
      rw [this]

theorem RF.cleanFeatureValue_finite (i : ℕ) (v : JSVal) :
    isFiniteNum (RF.cleanFeatureValue i v) = true := by
  cases v <;> rfl

theorem RF.cleanFrom_finite (l : List JSVal) :
    ∀ i, ∀ v ∈ RF.cleanFrom i l, isFiniteNum v = true := by
  induction l with
  | nil => intro i v hv; cases hv
  | cons w t ih =>
    intro i v hv
    rcases List.mem_cons.mp hv with rfl | hv
    · exact RF.cleanFeatureValue_finite i w
    · exact ih (i + 1) v hv

/-- The post-cleaning filter of `validateTrainingData` never discards an
example, because every cleaned feature value is a finite number. -/
theorem RF.validate_eq_map (l : List RF.TrainingDataPoint) :
    RF.validateTrainingData l = l.map RF.cleanPoint := by
  unfold RF.validateTrainingData
  apply List.filter_eq_self.mpr
  intro p hp
  rcases List.mem_map.mp hp with ⟨dp, _, rfl⟩
  apply List.all_eq_true.mpr
  intro v hv
  exact RF.cleanFrom_finite dp.features 0 v hv

/-! ### Claims C2, C3, C5 -/

/-- C3 (counterexample): the claim says the cleaning step substitutes the
§4.1 defaults index-aligned, in particular 999 at index 2
(days_since_last_consumed) and 365 at index 7 (days_until_expiry).  On a
feature array with NaN at index 2 and Infinity at index 7,
`cleanFeatureArray` substitutes 30 at both indices instead. -/
theorem claim_C3_counterexample :
    (RF.cleanFeatureArray [.num 30, .num 1, .nan, .num 0, .num 1, .num 6,
        .num 0, .inf, .num 0, .num 1, .num 30])[2]? = some (.num 30) ∧
    (RF.cleanFeatureArray [.num 30, .num 1, .nan, .num 0, .num 1, .num 6,
        .num 0, .inf, .num 0, .num 1, .num 30])[7]? = some (.num 30) ∧
    (RF.cleanFeatureArray [.num 30, .num 1, .nan, .num 0, .num 1, .num 6,
        .num 0, .inf, .num 0, .num 1, .num 30])[2]? ≠ some (.num 999) ∧
    (RF.cleanFeatureArray [.num 30, .num 1, .nan, .num 0, .num 1, .num 6,
        .num 0, .inf, .num 0, .num 1, .num 30])[7]? ≠ some (.num 365) := by
  decide

/-- C3 (amended): `cleanFeatureArray` is index-aligned default
substitution, but against its own table `getDefaultFeatureValue` =
[30, 1, 30, 0, 1, 6, 0, 30, 0, 1, 30], whose entries at indices 2 and 7
are both 30 (not the 999 and 365 used by `extractFeatures`): every
null/NaN/±Infinity value at index `i` is replaced by
`getDefaultFeatureValue i`, and finite values pass through unchanged. -/
theorem claim_C3_amended (l : List JSVal) (i : ℕ) (h : i < l.length) :
    ((RF.cleanFeatureArray l)[i]? = some (RF.cleanFeatureValue i (l.get ⟨i, h⟩))) ∧
    (isFiniteNum (l.get ⟨i, h⟩) = false →
      RF.cleanFeatureValue i (l.get ⟨i, h⟩) = .num (RF.getDefaultFeatureValue i)) ∧
    (∀ q : ℚ, l.get ⟨i, h⟩ = .num q → RF.cleanFeatureValue i (l.get ⟨i, h⟩) = .num q) ∧
    RF.getDefaultFeatureValue 2 = 30 ∧ RF.getDefaultFeatureValue 7 = 30 := by
  refine ⟨?_, ?_, ?_, rfl, rfl⟩
  · rw [RF.cleanFeatureArray, RF.cleanFrom_getElem? l 0 i]
    rw [List.getElem?_eq_getElem h]
    simp [List.get_eq_getElem]
  · intro hv
    cases hval : l.get ⟨i, h⟩ <;> simp_all [isFiniteNum, RF.cleanFeatureValue]
  · intro q hq
    rw [hq]
    rfl

/-- C3 (witness): the amended theorem applied to the concrete array of the
counterexample at index 2. -/
theorem claim_C3_witness :
    (RF.cleanFeatureArray [.num 30, .num 1, .nan, .num 0, .num 1, .num 6,
        .num 0, .inf, .num 0, .num 1, .num 30])[2]? =
      some (RF.cleanFeatureValue 2
        (([.num 30, .num 1, .nan, .num 0, .num 1, .num 6,
           .num 0, .inf, .num 0, .num 1, .num 30] : List JSVal).get ⟨2, by decide⟩)) :=
  (claim_C3_amended [.num 30, .num 1, .nan, .num 0, .num 1, .num 6,
      .num 0, .inf, .num 0, .num 1, .num 30] 2 (by decide)).1

/-- C2 (counterexample): the claim says a raw set of at least 10 synthetic
examples with non-finite feature values injected into all but 2 must fail
to train with the insufficient-data error.  On ten raw examples, eight of
which carry non-finite features and targets, the training gate succeeds:
cleaning substitutes defaults for every non-finite value, so all 10
examples survive validation. -/
theorem claim_C2_counterexample :
    (RF.trainGate Ex.c2raw).isOk = true ∧
    (RF.validateTrainingData Ex.c2raw).length = 10 ∧
    Ex.c2raw.length = 10 := by
  decide

/-- C2 (amended): validation never discards an example — per-index default
substitution makes every feature finite, so the post-cleaning filter keeps
all of them — and therefore `train`'s explicit insufficient-data error
fires exactly when fewer than 10 RAW examples were generated; injecting
non-finite values cannot reduce the clean count. -/
theorem claim_C2_amended (raw : List RF.TrainingDataPoint) :
    (RF.validateTrainingData raw).length = raw.length ∧
    ((RF.trainGate raw).isOk = true ↔ 10 ≤ raw.length) := by
  have hlen : (RF.validateTrainingData raw).length = raw.length := by
    rw [RF.validate_eq_map, List.length_map]
  refine ⟨hlen, ?_⟩
  unfold RF.trainGate
  by_cases h : raw.length < 10
  · rw [if_pos h]
    simp [Except.isOk, Except.toBool]
    omega
  · rw [if_neg h]
    have : ¬ (RF.validateTrainingData raw).length < 10 := by omega
    rw [if_neg this]
    simp [Except.isOk, Except.toBool]
    omega

/-- The cleaned classification target is always exactly 0 or 1. -/
theorem RF.cleanClassificationTarget_mem (v : JSVal) (d : ℚ) :
    RF.cleanClassificationTarget v d = 0 ∨ RF.cleanClassificationTarget v d = 1 := by
  cases v
  case num q =>
    simp only [RF.cleanClassificationTarget]
    by_cases hq : q = 0 ∨ q = 1
    · rw [if_pos hq]; exact hq
    · rw [if_neg hq]
      by_cases hd : d ≤ 7
      · right; rw [if_pos hd]
      · left; rw [if_neg hd]
  all_goals
    simp only [RF.cleanClassificationTarget]
    by_cases hd : d ≤ 7
  all_goals first
    | (right; rw [if_pos hd])
    | (left; rw [if_neg hd])

/-- When the incoming classification target is not exactly 0 or 1, the
cleaned target is re-derived from the cleaned days target. -/
theorem RF.cleanClassificationTarget_rederive (v : JSVal) (d : ℚ)
    (h0 : v ≠ .num 0) (h1 : v ≠ .num 1) :
    RF.cleanClassificationTarget v d = if d ≤ 7 then 1 else 0 := by
  cases v
  case num q =>
    have hq : ¬(q = 0 ∨ q = 1) := by
      rintro (rfl | rfl)
      · exact h0 rfl
      · exact h1 rfl
    simp only [RF.cleanClassificationTarget, if_neg hq]
  all_goals rfl

/-- C5 (counterexample): the claim says every emitted example satisfies
classification_target = (days_target ≤ 7 ? 1 : 0).  An input example with
days_target 3 and classification_target 0 is emitted unchanged — the code
re-derives the label only when it is not already 0 or 1 — so the emitted
example has days_target 3 (≤ 7) but classification_target 0 ≠ 1. -/
theorem claim_C5_counterexample :
    (RF.validateTrainingData [Ex.c5inconsistent]).map
      (fun p => (p.days_target, p.classification_target)) = [((3 : ℚ), (0 : ℚ))] ∧
    ¬((0 : ℚ) = if (3 : ℚ) ≤ 7 then 1 else 0) := by
  decide

/-- C5 (amended): every example emitted by `validateTrainingData` is the
cleaning of some input example, its classification target is exactly 0 or
1, and the round-trip equation classification_target =
(days_target ≤ 7 ? 1 : 0) holds whenever the input's classification
target was not already exactly 0 or 1; a pre-existing 0/1 label is kept
unchanged even when it contradicts the cleaned days target. -/
theorem claim_C5_amended (l : List RF.TrainingDataPoint) (p : RF.CleanPoint)
    (hp : p ∈ RF.validateTrainingData l) :
    (p.classification_target = 0 ∨ p.classification_target = 1) ∧
    ∃ dp ∈ l, p = RF.cleanPoint dp ∧
      ((dp.classification_target ≠ .num 0 ∧ dp.classification_target ≠ .num 1) →
        p.classification_target = if p.days_target ≤ 7 then (1 : ℚ) else 0) := by
  rw [RF.validate_eq_map] at hp
  rcases List.mem_map.mp hp with ⟨dp, hdp, rfl⟩
  refine ⟨RF.cleanClassificationTarget_mem _ _, dp, hdp, rfl, ?_⟩
  intro h
  exact RF.cleanClassificationTarget_rederive _ _ h.1 h.2

/-- C5 (witness): the amended theorem applied to a singleton input whose
classification target is NaN. -/
theorem claim_C5_witness :
    (RF.cleanPoint Ex.c5redo).classification_target = 0 ∨
    (RF.cleanPoint Ex.c5redo).classification_target = 1 :=
  (claim_C5_amended [Ex.c5redo] (RF.cleanPoint Ex.c5redo) (by decide)).1

/-! ### Claim C1 -/

theorem jsOr_finite {v : JSVal} (h1 : v ≠ .inf) (h2 : v ≠ .ninf) (d : ℚ) :
    isFiniteNum (jsOr v d) = true := by
  cases v
  case num q =>
    by_cases hq : q = 0 <;> simp [jsOr, jsTruthy, hq, isFiniteNum]
  case inf => exact absurd rfl h1
  case ninf => exact absurd rfl h2
  all_goals rfl

theorem jsOr_falsy {v : JSVal} (h : v = .nullv ∨ v = .nan) (d : ℚ) :
    jsOr v d = .num d := by
  rcases h with rfl | rfl <;> rfl

/-- C1 (counterexample): the claim gives `consumption_count` the
documented default 1, and says a missing field is never replaced by zero
unless zero is the documented default.  For a pattern whose
`consumption_count` is null, `extractFeatures` emits 0 at index 1
(`pattern.consumption_count || 0`), not 1. -/
theorem claim_C1_counterexample :
    (RF.featuresToArray (RF.extractFeatures []
        { average_consumption_days := .num 30, consumption_count := .nullv,
          last_consumed := none, category := "Dairy" }
        { time := 0, day := 1, month0 := 0 } none
        { total_items := .num 2, avg_frequency := .num 30 }).1)[1]?
      = some (.num 0) ∧
    (RF.featuresToArray (RF.extractFeatures []
        { average_consumption_days := .num 30, consumption_count := .nullv,
          last_consumed := none, category := "Dairy" }
        { time := 0, day := 1, month0 := 0 } none
        { total_items := .num 2, avg_frequency := .num 30 }).1)[1]?
      ≠ some (.num 1) := by
  decide

/-- C1 (amended): feature extraction is total and default-substituting —
provided no input field is ±Infinity (an infinite input passes the `||`
truthiness test and flows through) the output vector has exactly 11
finite entries, with defaults: average_consumption_days 30,
consumption_count 0 (NOT the claimed 1), days_since_last_consumed 999
when never consumed, days_until_expiry 365 when no expiry and clamped to
be nonnegative, item_age_days 0 when creation is unknown, and
user_avg_consumption_frequency 30. -/
theorem claim_C1_amended (enc : List String) (p : RF.PatternRow) (dt : RF.JSDate)
    (item : Option RF.ItemRow) (us : RF.UserStats)
    (ha : p.average_consumption_days ≠ .inf ∧ p.average_consumption_days ≠ .ninf)
    (hc : p.consumption_count ≠ .inf ∧ p.consumption_count ≠ .ninf)
    (ht : us.total_items ≠ .inf ∧ us.total_items ≠ .ninf)
    (hf : us.avg_frequency ≠ .inf ∧ us.avg_frequency ≠ .ninf) :
    (RF.featuresToArray (RF.extractFeatures enc p dt item us).1).length = 11 ∧
    (∀ v ∈ RF.featuresToArray (RF.extractFeatures enc p dt item us).1,
      isFiniteNum v = true) ∧
    ((p.average_consumption_days = .nullv ∨ p.average_consumption_days = .nan) →
      (RF.featuresToArray (RF.extractFeatures enc p dt item us).1)[0]? = some (.num 30)) ∧
    ((p.consumption_count = .nullv ∨ p.consumption_count = .nan) →
      (RF.featuresToArray (RF.extractFeatures enc p dt item us).1)[1]? = some (.num 0)) ∧
    (p.last_consumed = none →
      (RF.featuresToArray (RF.extractFeatures enc p dt item us).1)[2]? = some (.num 999)) ∧
    (item.bind (fun it => it.expiryDate) = none →
      (RF.featuresToArray (RF.extractFeatures enc p dt item us).1)[7]? = some (.num 365)) ∧
    (∀ q : ℚ, (RF.featuresToArray (RF.extractFeatures enc p dt item us).1)[7]?
        = some (.num q) → 0 ≤ q) ∧
    (item.bind (fun it => it.created_at) = none →
      (RF.featuresToArray (RF.extractFeatures enc p dt item us).1)[8]? = some (.num 0)) ∧
    ((us.avg_frequency = .nullv ∨ us.avg_frequency = .nan) →
      (RF.featuresToArray (RF.extractFeatures enc p dt item us).1)[10]? = some (.num 30)) := by
  have hout : RF.featuresToArray (RF.extractFeatures enc p dt item us).1 =
      [jsOr p.average_consumption_days 30,
       jsOr p.consumption_count 0,
       (match p.last_consumed with
        | some t => JSVal.num ⌊((dt.time - t : ℚ)) / msPerDay⌋
        | none => JSVal.num 999),
       .num ((RF.encodeCategoryAsNumber enc p.category).1 : ℚ),
       .num (dt.day.val : ℚ),
       .num ((dt.month0.val : ℚ) + 1),
       .num (if dt.day.val = 0 ∨ dt.day.val = 6 then 1 else 0),
       .num (max 0 (match item.bind (fun it => it.expiryDate) with
         | some e => ⌊((e - dt.time : ℚ)) / msPerDay⌋
         | none => 365)),
       .num (match item.bind (fun it => it.created_at) with
         | some c => ⌊((dt.time - c : ℚ)) / msPerDay⌋
         | none => 0),
       jsOr us.total_items 0,
       jsOr us.avg_frequency 30] := rfl
  rw [hout]
  refine ⟨rfl, ?_, ?_, ?_, ?_, ?_, ?_, ?_, ?_⟩
  · intro v hv
    simp only [List.mem_cons, List.not_mem_nil, or_false] at hv
    rcases hv with rfl | rfl | rfl | rfl | rfl | rfl | rfl | rfl | rfl | rfl | rfl
    · exact jsOr_finite ha.1 ha.2 30
    · exact jsOr_finite hc.1 hc.2 0
    · cases p.last_consumed <;> rfl
    · rfl
    · rfl
    · rfl
    · rfl
    · rfl
    · rfl
    · exact jsOr_finite ht.1 ht.2 0
    · exact jsOr_finite hf.1 hf.2 30
  · intro h
    simp only [List.getElem?_cons_zero, jsOr_falsy h]
  · intro h
    simp only [List.getElem?_cons_succ, List.getElem?_cons_zero, jsOr_falsy h]
  · intro h
    simp only [List.getElem?_cons_succ, List.getElem?_cons_zero, h]
  · intro h
    simp only [List.getElem?_cons_succ, List.getElem?_cons_zero, h]
    norm_num
  · intro q hq
    simp only [List.getElem?_cons_succ, List.getElem?_cons_zero, Option.some.injEq,
      JSVal.num.injEq] at hq
    rw [← hq]
    exact le_max_left 0 _
  · intro h
    simp only [List.getElem?_cons_succ, List.getElem?_cons_zero, h]
  · intro h
    simp only [List.getElem?_cons_succ, List.getElem?_cons_zero, jsOr_falsy h]

/-- C1 (witness): the amended theorem at a pattern with every optional
field missing — the vector is total, finite, and carries the code's
defaults. -/
theorem claim_C1_witness :
    ((RF.featuresToArray (RF.extractFeatures []
        { average_consumption_days := .nullv, consumption_count := .nullv,
          last_consumed := none, category := "Dairy" }
        { time := 0, day := 1, month0 := 0 } none
        { total_items := .nullv, avg_frequency := .nullv }).1).length = 11) ∧
    ((RF.featuresToArray (RF.extractFeatures []
        { average_consumption_days := .nullv, consumption_count := .nullv,
          last_consumed := none, category := "Dairy" }
        { time := 0, day := 1, month0 := 0 } none
        { total_items := .nullv, avg_frequency := .nullv }).1)[0]? = some (.num 30)) ∧
    ((RF.featuresToArray (RF.extractFeatures []
        { average_consumption_days := .nullv, consumption_count := .nullv,
          last_consumed := none, category := "Dairy" }
        { time := 0, day := 1, month0 := 0 } none
        { total_items := .nullv, avg_frequency := .nullv }).1)[2]? = some (.num 999)) ∧
    ((RF.featuresToArray (RF.extractFeatures []
        { average_consumption_days := .nullv, consumption_count := .nullv,
          last_consumed := none, category := "Dairy" }
        { time := 0, day := 1, month0 := 0 } none
        { total_items := .nullv, avg_frequency := .nullv }).1)[7]? = some (.num 365)) := by
  have h := claim_C1_amended []
    { average_consumption_days := .nullv, consumption_count := .nullv,
      last_consumed := none, category := "Dairy" }
    { time := 0, day := 1, month0 := 0 } none
    { total_items := .nullv, avg_frequency := .nullv }
    (by decide) (by decide) (by decide) (by decide)
  exact ⟨h.1, h.2.2.1 (Or.inl rfl), h.2.2.2.2.1 rfl, h.2.2.2.2.2.1 rfl⟩

/-! ### Claims C4, C7, C10 -/

/-- C4 (divergence at the failing input): `ConsumptionPredictor.train`
never clears `userPatterns`, it pushes the incoming rows onto the
existing buckets.  Training twice with the same two Dairy patterns
duplicates both, so the deterministic `predictNextConsumption` (no
randomness anywhere in this model) returns three predictions — the top
item twice — with mean confidence 23/30, instead of the two predictions
with mean confidence 7/10 obtained after a single training. -/
theorem claim_C4_failing :
    CP.predictNextConsumption (CP.train (CP.train [] Ex.c4patterns) Ex.c4patterns)
        "u" (some "Dairy")
      ≠ CP.predictNextConsumption (CP.train [] Ex.c4patterns) "u" (some "Dairy") ∧
    (CP.predictNextConsumption (CP.train [] Ex.c4patterns) "u" (some "Dairy")).2
      = 7/10 ∧
    (CP.predictNextConsumption (CP.train [] Ex.c4patterns) "u" (some "Dairy")).1.length
      = 2 ∧
    (CP.predictNextConsumption (CP.train (CP.train [] Ex.c4patterns) Ex.c4patterns)
        "u" (some "Dairy")).2 = 23/30 ∧
    (CP.predictNextConsumption (CP.train (CP.train [] Ex.c4patterns) Ex.c4patterns)
        "u" (some "Dairy")).1.length = 3 := by
  have hs1 : CP.train [] Ex.c4patterns = [("u", [("Dairy", [Ex.c4milk, Ex.c4yogurt])])] := rfl
  have hs2 : CP.train (CP.train [] Ex.c4patterns) Ex.c4patterns =
      [("u", [("Dairy", [Ex.c4milk, Ex.c4milk, Ex.c4yogurt, Ex.c4yogurt])])] := rfl
  have hp1 : CP.predictNextConsumption [("u", [("Dairy", [Ex.c4milk, Ex.c4yogurt])])]
      "u" (some "Dairy") =
      ([CP.mkPrediction Ex.c4milk, CP.mkPrediction Ex.c4yogurt],
       CP.avgConfidence [CP.mkPrediction Ex.c4milk, CP.mkPrediction Ex.c4yogurt]) := rfl
  have hp2 : CP.predictNextConsumption
      [("u", [("Dairy", [Ex.c4milk, Ex.c4milk, Ex.c4yogurt, Ex.c4yogurt])])]
      "u" (some "Dairy") =
      ([CP.mkPrediction Ex.c4milk, CP.mkPrediction Ex.c4milk, CP.mkPrediction Ex.c4yogurt],
       CP.avgConfidence [CP.mkPrediction Ex.c4milk, CP.mkPrediction Ex.c4milk,
         CP.mkPrediction Ex.c4yogurt]) := rfl
  have hm : (CP.mkPrediction Ex.c4milk).confidence = 9/10 := by
    show min ((10 : ℚ)/10) (9/10) = 9/10
    rw [min_def]
    norm_num
  have hy : (CP.mkPrediction Ex.c4yogurt).confidence = 1/2 := by
    show min ((5 : ℚ)/10) (9/10) = 1/2
    rw [min_def]
    norm_num
  have ha1 : CP.avgConfidence [CP.mkPrediction Ex.c4milk, CP.mkPrediction Ex.c4yogurt]
      = 7/10 := by
    simp only [CP.avgConfidence, List.isEmpty_cons, List.map_cons, List.map_nil,
      List.sum_cons, List.sum_nil, List.length_cons, List.length_nil, hm, hy]
    norm_num
  have ha2 : CP.avgConfidence [CP.mkPrediction Ex.c4milk, CP.mkPrediction Ex.c4milk,
      CP.mkPrediction Ex.c4yogurt] = 23/30 := by
    simp only [CP.avgConfidence, List.isEmpty_cons, List.map_cons, List.map_nil,
      List.sum_cons, List.sum_nil, List.length_cons, List.length_nil, hm, hy]
    norm_num
  have hP1 : CP.predictNextConsumption (CP.train [] Ex.c4patterns) "u" (some "Dairy") =
      ([CP.mkPrediction Ex.c4milk, CP.mkPrediction Ex.c4yogurt], 7/10) := by
    rw [hs1, hp1, ha1]
  have hP2 : CP.predictNextConsumption (CP.train (CP.train [] Ex.c4patterns) Ex.c4patterns)
      "u" (some "Dairy") =
      ([CP.mkPrediction Ex.c4milk, CP.mkPrediction Ex.c4milk, CP.mkPrediction Ex.c4yogurt],
       23/30) := by
    rw [hs2, hp2, ha2]
  refine ⟨?_, ?_, ?_, ?_, ?_⟩
  · rw [hP1, hP2]
    intro h
    have h2 := congrArg Prod.snd h
    simp only [] at h2
    exact absurd h2 (by norm_num)
  · rw [hP1]
  · rw [hP1]
    rfl
  · rw [hP2]
  · rw [hP2]
    rfl

/-- C7: the per-item risk score is 0.7·confidence + 0.3·category-risk for
a predicted "expire" and 0.3·category-risk − 0.1·confidence otherwise,
bucketed high iff score > 0.7, medium iff 0.4 < score ≤ 0.7, low iff
score ≤ 0.4; and the concrete instance — predicted expire, confidence
0.9, category risk 0.5 — scores 39/50 = 0.78 and is classified high. -/
theorem claim_C7 (item : ML.Item) (pattern : Option ML.Pattern) (due : Option ℤ)
    (pred : KNN.PredictionResult) (catRisk : ℚ) :
    ((ML.analyzeItemWith item pattern due pred catRisk).risk_score =
      if pred.prediction = KNN.Outcome.expire then
        7/10 * pred.confidence + 3/10 * catRisk
      else
        3/10 * catRisk - 1/10 * pred.confidence) ∧
    ((ML.analyzeItemWith item pattern due pred catRisk).risk_level = ML.RiskLevel.high
      ↔ 7/10 < (ML.analyzeItemWith item pattern due pred catRisk).risk_score) ∧
    ((ML.analyzeItemWith item pattern due pred catRisk).risk_level = ML.RiskLevel.medium
      ↔ (4/10 < (ML.analyzeItemWith item pattern due pred catRisk).risk_score ∧
         (ML.analyzeItemWith item pattern due pred catRisk).risk_score ≤ 7/10)) ∧
    ((ML.analyzeItemWith item pattern due pred catRisk).risk_level = ML.RiskLevel.low
      ↔ (ML.analyzeItemWith item pattern due pred catRisk).risk_score ≤ 4/10) ∧
    ((ML.analyzeItemWith Ex.c7item none none Ex.c7pred (1/2)).risk_score = 39/50) ∧
    ((ML.analyzeItemWith Ex.c7item none none Ex.c7pred (1/2)).risk_level
      = ML.RiskLevel.high) := by
  have hscore : (ML.analyzeItemWith item pattern due pred catRisk).risk_score =
      ML.riskScoreOf pred catRisk := rfl
  have hlevel : (ML.analyzeItemWith item pattern due pred catRisk).risk_level =
      ML.riskLevelOf (ML.riskScoreOf pred catRisk) := rfl
  have hi1 : ML.riskScoreOf Ex.c7pred (1/2) = 39/50 := by
    norm_num [ML.riskScoreOf, Ex.c7pred]
  have hi2 : ML.riskLevelOf (ML.riskScoreOf Ex.c7pred (1/2)) = ML.RiskLevel.high := by
    rw [hi1]
    unfold ML.riskLevelOf
    norm_num
  refine ⟨rfl, ?_, ?_, ?_, hi1, hi2⟩
  · rw [hscore, hlevel]
    unfold ML.riskLevelOf
    split_ifs with h1 h2
    · simp [h1]
    · simp
      exact le_of_not_lt h1
    · simp
      exact le_of_not_lt h1
  · rw [hscore, hlevel]
    unfold ML.riskLevelOf
    split_ifs with h1 h2
    · constructor
      · intro hcon
        cases hcon
      · rintro ⟨-, hle⟩
        exact absurd h1 (not_lt.mpr hle)
    · simp only [true_iff]
      exact ⟨h2, le_of_not_lt h1⟩
    · constructor
      · intro hcon
        cases hcon
      · rintro ⟨h4, -⟩
        exact absurd h4 h2
  · rw [hscore, hlevel]
    unfold ML.riskLevelOf
    split_ifs with h1 h2
    · constructor
      · intro hcon
        cases hcon
      · intro hle
        exact absurd (lt_trans (by norm_num) h1) (not_lt.mpr hle)
    · constructor
      · intro hcon
        cases hcon
      · intro hle
        exact absurd h2 (not_lt.mpr hle)
    · simp only [true_iff]
      exact le_of_not_lt h2

/-- C10: for a user with zero active items, `analyzeInventory` takes the
early return: an empty items list and a summary with total_items 0,
expiring_soon 0 and waste_risk 0 (no `high_risk_items`,
`waste_risk_level` or `categories` fields).  The mean item risk — the
division in the non-empty branch — is never computed, the function is
total, and every field is a plain finite literal. -/
theorem claim_C10 (model : KNN.Model) (now : ℤ) (patterns : List ML.Pattern)
    (categoryStats : List ML.CatStat) :
    ML.analyzeInventory model now [] patterns categoryStats =
      { items := []
        summary := { total_items := 0, expiring_soon := 0, high_risk_items := none,
                     waste_risk := 0, waste_risk_level := none }
        categories := none } := rfl

/-! ### Claim C8 -/

/-- C8: for every 14-day consumption-count history, the trend forecaster
computes 8 moving averages that are the means of the 7-day windows of the
history, forecasts day i (i = 1..7) as
max(0, round(lastMA + trend·i)) with trend = (last MA − first MA)/7,
reports the fixed confidence 0.6, and on the all-zero history forecasts
exactly [0,0,0,0,0,0,0]. -/
theorem claim_C8 (hist : List ℚ) (hlen : hist.length = 14) :
    (ML.movingAverages hist).length = 8 ∧
    (∀ i, i < 8 →
      (ML.movingAverages hist).getD i 0 = ((hist.drop i).take 7).sum / 7) ∧
    (ML.predictTrend hist).2 = 6/10 ∧
    (ML.predictTrend hist).1.length = 7 ∧
    (∀ j, j < 7 → (ML.predictTrend hist).1.getD j 0 =
      max 0 (jsRound ((ML.movingAverages hist).getD 7 0 +
        (((ML.movingAverages hist).getD 7 0 - (ML.movingAverages hist).getD 0 0) / 7)
          * ((j : ℚ) + 1)))) ∧
    (hist = List.replicate 14 0 → (ML.predictTrend hist).1 = List.replicate 7 0) := by
  have hmlen : (ML.movingAverages hist).length = 8 := by
    simp [ML.movingAverages]
  have hget : ∀ i, i < 8 →
      (ML.movingAverages hist).getD i 0 = ((hist.drop i).take 7).sum / 7 := by
    intro i hi
    have hw : ((hist.drop i).take 7).length = 7 := by
      rw [List.length_take, List.length_drop, hlen]
      omega
    rw [List.getD_eq_getElem?_getD, ML.movingAverages, List.getElem?_map,
      List.getElem?_range hi, Option.map_some', Option.getD_some]
    show ((hist.drop i).take 7).sum / ((((hist.drop i).take 7).length : ℕ) : ℚ) = _
    rw [hw]
    norm_num
  have htrend : ML.trendOf (ML.movingAverages hist) =
      ((ML.movingAverages hist).getD 7 0 - (ML.movingAverages hist).getD 0 0) / 7 := by
    rw [ML.trendOf, if_pos (by rw [hmlen]; norm_num)]
    rw [hmlen]
    norm_num
  have hval : ∀ j : ℕ, j < 7 → (ML.predictTrend hist).1[j]? =
      some (max 0 (jsRound ((ML.movingAverages hist).getD 7 0 +
        (((ML.movingAverages hist).getD 7 0 - (ML.movingAverages hist).getD 0 0) / 7)
          * ((j : ℚ) + 1)))) := by
    intro j hj
    show ((List.range 7).map (fun (i : ℕ) => max 0 (jsRound
        ((ML.movingAverages hist).getD ((ML.movingAverages hist).length - 1) 0 +
         ML.trendOf (ML.movingAverages hist) * ((i : ℚ) + 1)))))[j]? = _
    rw [List.getElem?_map, List.getElem?_range hj, Option.map_some', hmlen, htrend]
  have hplen : (ML.predictTrend hist).1.length = 7 := by
    simp [ML.predictTrend]
  refine ⟨hmlen, hget, rfl, hplen, ?_, ?_⟩
  · intro j hj
    rw [List.getD_eq_getElem?_getD, hval j hj, Option.getD_some]
  · intro hrepl
    subst hrepl
    have hm : ∀ i, i < 8 → (ML.movingAverages (List.replicate 14 (0:ℚ))).getD i 0 = 0 := by
      intro i hi
      rw [hget i hi, List.drop_replicate, List.take_replicate, List.sum_replicate]
      norm_num
    apply List.ext_getElem?
    intro j
    by_cases hj : j < 7
    · rw [hval j hj, hm 7 (by omega), hm 0 (by omega), List.getElem?_replicate, if_pos hj]
      norm_num [jsRound]
    · rw [List.getElem?_eq_none, List.getElem?_eq_none]
      · rw [List.length_replicate]
        omega
      · rw [hplen]
        omega

/-- C8 (witness): the theorem applied to the all-zero 14-day history. -/
theorem claim_C8_witness :
    (ML.predictTrend (List.replicate 14 0)).1 = List.replicate 7 0 ∧
    (ML.predictTrend (List.replicate 14 0)).2 = 6/10 := by
  have h := claim_C8 (List.replicate 14 0) (by simp)
  exact ⟨h.2.2.2.2.2 rfl, h.2.2.1⟩

/-! ### Claims C6 and C9 -/

theorem KNN.length_nearestOf (m : KNN.Model) (item : KNN.Query)
    (cands : List KNN.TrainingPoint) :
    (KNN.nearestOf m item cands).length = min m.k cands.length := by
  rw [KNN.nearestOf, List.length_take, length_stableSort, List.length_map]

theorem KNN.neighborsFor_ne_nil (m : KNN.Model) (item : KNN.Query)
    (hk : 1 ≤ m.k) (hne : m.trainingData ≠ []) :
    KNN.neighborsFor m item ≠ [] := by
  rw [KNN.neighborsFor]
  by_cases hn : (KNN.nearestOf m item
      (m.trainingData.filter (fun d => d.category = item.category))).isEmpty = true
  · rw [if_pos hn]
    apply List.ne_nil_of_length_pos
    rw [KNN.length_nearestOf]
    have : 0 < m.trainingData.length := List.length_pos.mpr hne
    omega
  · rw [if_neg hn]
    exact fun h => hn (List.isEmpty_iff.mpr h)

theorem KNN.neighborsFor_length_le (m : KNN.Model) (item : KNN.Query) :
    (KNN.neighborsFor m item).length ≤ m.k := by
  rw [KNN.neighborsFor]
  split
  · rw [KNN.length_nearestOf]
    omega
  · rw [KNN.length_nearestOf]
    omega

/-- Vote-fold facts: the winning count bounds every label's count, is at
least 1 and at most the number of neighbors, and the winner is the FIRST
element of the neighbor-outcome sequence whose total count equals the
winning count. -/
theorem KNN.votesFold_spec (os : List KNN.Outcome) (hne : os ≠ []) :
    (∀ o : KNN.Outcome, os.count o ≤ (KNN.votesFold os).1) ∧
    1 ≤ (KNN.votesFold os).1 ∧
    (KNN.votesFold os).1 ≤ os.length ∧
    os.find? (fun o => decide (os.count o = (KNN.votesFold os).1)) =
      some ((KNN.votesFold os).2) := by
  obtain ⟨h1, h2, h3⟩ := argmaxFold_spec (fun o => os.count o) (firstOcc os) 0
    KNN.Outcome.consume
  have hM : (KNN.votesFold os).1 = maxVotes (fun o => os.count o) (firstOcc os) := by
    have h1b := h1
    rw [Nat.zero_max] at h1b
    exact h1b
  have hmem1 : ∀ e ∈ firstOcc os, 1 ≤ os.count e := by
    intro e he
    exact List.count_pos_iff.mpr ((mem_firstOcc os e).mp he)
  have hge1 : 1 ≤ (KNN.votesFold os).1 := by
    obtain ⟨a, t, rfl⟩ := List.exists_cons_of_ne_nil hne
    have ha : a ∈ firstOcc (a :: t) := by
      rw [mem_firstOcc]
      exact List.mem_cons_self a t
    calc 1 ≤ (a :: t).count a := hmem1 a ha
      _ ≤ maxVotes (fun o => (a :: t).count o) (firstOcc (a :: t)) :=
        le_maxVotes (fun o => (a :: t).count o) ha
      _ = (KNN.votesFold (a :: t)).1 := hM.symm
  refine ⟨?_, hge1, ?_, ?_⟩
  · intro o
    by_cases ho : o ∈ os
    · rw [hM]
      exact le_maxVotes (fun o => os.count o) ((mem_firstOcc os o).mpr ho)
    · rw [List.count_eq_zero.mpr ho]
      exact Nat.zero_le _
  · rw [hM]
    exact maxVotes_le _ fun e _ => List.count_le_length e os
  · have h0 : 0 < maxVotes (fun o => os.count o) (firstOcc os) := by
      rw [← hM]
      exact hge1
    have hfind := h3 h0
    rw [hM, ← find?_firstOcc]
    exact hfind

/-- C6: the KNN confidence is always maxCount/k with maxCount between 0
and k (so it lies in {0, 1/k, …, 1} and in [0,1]), and it is 0 exactly
when the training set is empty — also when the category-restricted
candidate pool has fewer than k members, since the vote count can then
not exceed the (short) neighbor list's length. -/
theorem claim_C6 (m : KNN.Model) (item : KNN.Query) (hk : 1 ≤ m.k) :
    (∃ i : ℕ, i ≤ m.k ∧ (KNN.predict m item).confidence = (i : ℚ) / (m.k : ℚ)) ∧
    (0 ≤ (KNN.predict m item).confidence ∧ (KNN.predict m item).confidence ≤ 1) ∧
    ((KNN.predict m item).confidence = 0 ↔ m.trainingData = []) := by
  by_cases he : m.trainingData.isEmpty = true
  · have hd : KNN.predict m item = ⟨.consume, 0, 30⟩ := by
      rw [KNN.predict, if_pos he]
    rw [hd]
    refine ⟨⟨0, Nat.zero_le _, by simp⟩, ⟨le_refl 0, by norm_num⟩, ?_⟩
    simp [List.isEmpty_iff.mp he]
  · have hne : m.trainingData ≠ [] := fun h => he (List.isEmpty_iff.mpr h)
    have hnbrs : KNN.neighborsFor m item ≠ [] := KNN.neighborsFor_ne_nil m item hk hne
    have hos : (KNN.neighborsFor m item).map (fun n => n.1.outcome) ≠ [] := by
      rw [Ne, List.map_eq_nil_iff]
      exact hnbrs
    obtain ⟨hbound, hge1, hlen, hfind⟩ := KNN.votesFold_spec _ hos
    have hconf : (KNN.predict m item).confidence =
        ((KNN.votesFold ((KNN.neighborsFor m item).map (fun n => n.1.outcome))).1 : ℚ)
          / (m.k : ℚ) := by
      rw [KNN.predict, if_neg he]
    have hkq : (0 : ℚ) < (m.k : ℚ) := by
      have : 0 < m.k := hk
      exact_mod_cast this
    have hMk : (KNN.votesFold ((KNN.neighborsFor m item).map (fun n => n.1.outcome))).1
        ≤ m.k := by
      calc (KNN.votesFold _).1
          ≤ ((KNN.neighborsFor m item).map (fun n => n.1.outcome)).length := hlen
        _ = (KNN.neighborsFor m item).length := List.length_map _ _
        _ ≤ m.k := KNN.neighborsFor_length_le m item
    refine ⟨⟨_, hMk, hconf⟩, ⟨?_, ?_⟩, ?_⟩
    · rw [hconf]
      positivity
    · rw [hconf]
      rw [div_le_one hkq]
      exact_mod_cast hMk
    · rw [hconf]
      constructor
      · intro h0
        exfalso
        have : ((KNN.votesFold ((KNN.neighborsFor m item).map (fun n => n.1.outcome))).1 : ℚ)
            = 0 := by
          field_simp at h0
          exact_mod_cast h0
        have h1q : (1 : ℚ) ≤
            ((KNN.votesFold ((KNN.neighborsFor m item).map (fun n => n.1.outcome))).1 : ℚ) := by
          exact_mod_cast hge1
        rw [this] at h1q
        norm_num at h1q
      · intro h
        exact absurd h hne

/-- C6 (witness): the theorem applied to a one-example training set of the
query's category with k = 5. -/
theorem claim_C6_witness :
    (∃ i : ℕ, i ≤ Ex.c6model.k ∧
      (KNN.predict Ex.c6model Ex.c6query).confidence = (i : ℚ) / (Ex.c6model.k : ℚ)) ∧
    (0 ≤ (KNN.predict Ex.c6model Ex.c6query).confidence ∧
      (KNN.predict Ex.c6model Ex.c6query).confidence ≤ 1) ∧
    ((KNN.predict Ex.c6model Ex.c6query).confidence = 0 ↔ Ex.c6model.trainingData = []) :=
  claim_C6 Ex.c6model Ex.c6query (by norm_num [Ex.c6model])

/-- C9: for a non-empty training set, the returned label is one of the
selected neighbors' outcomes, its total vote count is maximal, and on a
vote tie the winner is the label whose first occurrence comes earliest in
the ascending-distance neighbor order (the `count > maxCount` fold over
the insertion-ordered `outcomes` object never replaces on equality);
`predict` is a total function, so it never throws. -/
theorem claim_C9 (m : KNN.Model) (item : KNN.Query) (hne : m.trainingData ≠ [])
    (hk : 1 ≤ m.k) :
    ((KNN.predict m item).prediction ∈
      (KNN.neighborsFor m item).map (fun n => n.1.outcome)) ∧
    (∀ o : KNN.Outcome,
      ((KNN.neighborsFor m item).map (fun n => n.1.outcome)).count o ≤
      ((KNN.neighborsFor m item).map (fun n => n.1.outcome)).count
        ((KNN.predict m item).prediction)) ∧
    (∀ o : KNN.Outcome,
      ((KNN.neighborsFor m item).map (fun n => n.1.outcome)).count o =
      ((KNN.neighborsFor m item).map (fun n => n.1.outcome)).count
        ((KNN.predict m item).prediction) →
      ((KNN.neighborsFor m item).map (fun n => n.1.outcome)).indexOf
        ((KNN.predict m item).prediction) ≤
      ((KNN.neighborsFor m item).map (fun n => n.1.outcome)).indexOf o) := by
  have he : ¬(m.trainingData.isEmpty = true) := fun h => hne (List.isEmpty_iff.mp h)
  have hnbrs : KNN.neighborsFor m item ≠ [] := KNN.neighborsFor_ne_nil m item hk hne
  have hos : (KNN.neighborsFor m item).map (fun n => n.1.outcome) ≠ [] := by
    rw [Ne, List.map_eq_nil_iff]
    exact hnbrs
  obtain ⟨hbound, hge1, hlen, hfind⟩ := KNN.votesFold_spec _ hos
  have hpred : (KNN.predict m item).prediction =
      (KNN.votesFold ((KNN.neighborsFor m item).map (fun n => n.1.outcome))).2 := by
    rw [KNN.predict, if_neg he]
  rw [hpred]
  have hcount : ((KNN.neighborsFor m item).map (fun n => n.1.outcome)).count
      ((KNN.votesFold ((KNN.neighborsFor m item).map (fun n => n.1.outcome))).2) =
      (KNN.votesFold ((KNN.neighborsFor m item).map (fun n => n.1.outcome))).1 := by
    have := List.find?_some hfind
    exact of_decide_eq_true this
  refine ⟨List.mem_of_find?_eq_some hfind, ?_, ?_⟩
  · intro o
    rw [hcount]
    exact hbound o
  · intro o ho
    obtain ⟨-, as, bs, heq, hall⟩ := List.find?_eq_some.mp hfind
    have hpnotin : (KNN.votesFold ((KNN.neighborsFor m item).map (fun n => n.1.outcome))).2
        ∉ as := by
      intro hin
      have h2 := hall _ hin
      simp only [Bool.not_eq_true', decide_eq_false_iff_not] at h2
      exact h2 hcount
    have honotin : o ∉ as := by
      intro hin
      have h2 := hall _ hin
      simp only [Bool.not_eq_true', decide_eq_false_iff_not] at h2
      exact h2 (ho.trans hcount)
    have key : ∀ (l1 l2 : List KNN.Outcome) (p x : KNN.Outcome), p ∉ l1 → x ∉ l1 →
        (l1 ++ p :: l2).indexOf p ≤ (l1 ++ p :: l2).indexOf x := by
      intro l1 l2 p x hp hx
      rw [indexOf_append_of_notMem hp, indexOf_append_of_notMem hx,
        List.indexOf_cons_self]
      exact Nat.add_le_add_left (Nat.zero_le _) _
    have hres := key as bs _ o hpnotin honotin
    rwa [← heq] at hres

/-- C9 (witness): the theorem at a two-example equidistant (tied) training
set. -/
theorem claim_C9_witness :
    ((KNN.predict Ex.c9model Ex.c9query).prediction ∈
      (KNN.neighborsFor Ex.c9model Ex.c9query).map (fun n => n.1.outcome)) ∧
    (∀ o : KNN.Outcome,
      ((KNN.neighborsFor Ex.c9model Ex.c9query).map (fun n => n.1.outcome)).count o ≤
      ((KNN.neighborsFor Ex.c9model Ex.c9query).map (fun n => n.1.outcome)).count
        ((KNN.predict Ex.c9model Ex.c9query).prediction)) ∧
    (∀ o : KNN.Outcome,
      ((KNN.neighborsFor Ex.c9model Ex.c9query).map (fun n => n.1.outcome)).count o =
      ((KNN.neighborsFor Ex.c9model Ex.c9query).map (fun n => n.1.outcome)).count
        ((KNN.predict Ex.c9model Ex.c9query).prediction) →
      ((KNN.neighborsFor Ex.c9model Ex.c9query).map (fun n => n.1.outcome)).indexOf
        ((KNN.predict Ex.c9model Ex.c9query).prediction) ≤
      ((KNN.neighborsFor Ex.c9model Ex.c9query).map (fun n => n.1.outcome)).indexOf o) :=
  claim_C9 Ex.c9model Ex.c9query (by simp [Ex.c9model]) (by norm_num [Ex.c9model])
